import Mathlib

/-!
Shallow embedding of the optoguard scene-state and alert engine:
`src/watchdog.py` (class `WatchdogMonitor`) and `src/utils.py`
(class `DetectionManager`).  Python floats are modelled as rationals,
Python dicts as association lists, Python sets either as lists of
labels (watchdog) or as `Finset String` (detection manager).
-/

namespace Optoguard

/-- Normalized bounding box `(x1, y1, x2, y2)`. -/
structure BBox where
  x1 : ℚ
  y1 : ℚ
  x2 : ℚ
  y2 : ℚ
deriving DecidableEq, Repr

/-- One detection: `(object_name, confidence, bbox)`. -/
structure Detection where
  label : String
  confidence : ℚ
  bbox : BBox
deriving DecidableEq, Repr

/-- Alert severity levels (`AlertLevel` enum in `watchdog.py`). -/
inductive AlertLevel where
  | INFO
  | WARNING
  | ALERT
deriving DecidableEq, Repr

/-- Remove every binding of key `k` from an association list
(used to model Python dict overwrite). -/
def eraseKeyA {β : Type} (k : String) : List (String × β) → List (String × β)
  | [] => []
  | p :: r => if p.1 = k then eraseKeyA k r else p :: eraseKeyA k r

/-- Dict update `m[k] = v`: the new binding shadows any previous one. -/
def upsert {β : Type} (k : String) (v : β) (m : List (String × β)) : List (String × β) :=
  (k, v) :: eraseKeyA k m

/-- Dict lookup `m.get(k)` returning the current binding of `k`, if any. -/
def lookupA {β : Type} (k : String) : List (String × β) → Option β
  | [] => none
  | p :: r => if p.1 = k then some p.2 else lookupA k r

/-- Dict lookup with default `m.get(k, 0)` as used for cooldown stamps. -/
def lookupD (m : List (String × ℚ)) (k : String) : ℚ :=
  (lookupA k m).getD 0

/-- Keys of an association-list dict. -/
def keysA {β : Type} (m : List (String × β)) : List String :=
  m.map Prod.fst

/-- Python `str.capitalize()`: first character upper-cased, the rest
lower-cased. -/
def pyCapitalize (s : String) : String :=
  match s.toList with
  | [] => ""
  | c :: rest => String.mk (c.toUpper :: rest.map Char.toLower)

/-- Snapshot of a processed scene (`SceneState` dataclass). -/
structure SceneState where
  objects : List (String × (ℚ × BBox))
  timestamp : ℚ
  is_empty : Bool
deriving DecidableEq, Repr

/-- Mutable state of `WatchdogMonitor` plus its immutable configuration. -/
structure WatchdogMonitor where
  cooldown_seconds : ℚ
  empty_scene_cooldown : ℚ
  min_confidence : ℚ
  previous_state : Option SceneState
  last_alert_time : List (String × ℚ)
  last_empty_alert_time : ℚ
  important_objects : List String
  persistent_objects : List String
  object_persistence_time : List (String × ℚ)
  min_persistence_time : ℚ
deriving DecidableEq, Repr

/-- Embeds `WatchdogMonitor.__init__`. -/
def initWatchdog (cooldown_seconds empty_scene_cooldown min_confidence : ℚ) :
    WatchdogMonitor :=
  { cooldown_seconds := cooldown_seconds
    empty_scene_cooldown := empty_scene_cooldown
    min_confidence := min_confidence
    previous_state := none
    last_alert_time := []
    last_empty_alert_time := 0
    important_objects :=
      ["laptop", "cell phone", "backpack", "handbag", "suitcase",
       "person", "bicycle", "car", "motorcycle"]
    persistent_objects := []
    object_persistence_time := []
    min_persistence_time := 10 }

/-- Embeds `_get_current_objects`: keep detections with `conf >= min_confidence`
as a dict `label -> (confidence, bbox)`; duplicate labels collapse to the
last occurrence. -/
def getCurrentObjects (minConf : ℚ) (detections : List Detection) :
    List (String × (ℚ × BBox)) :=
  detections.foldl
    (fun m d => if d.confidence ≥ minConf then upsert d.label (d.confidence, d.bbox) m else m)
    []

/-- Computes `set(current.keys()) - set(previous.keys())`: the newly appearing labels. -/
def newObjsOf (current previous : List (String × (ℚ × BBox))) : List String :=
  (keysA current).filter (fun k => decide (k ∉ keysA previous))

/-- Computes `set(previous.keys()) - set(current.keys())`: the disappeared labels. -/
def removedObjsOf (current previous : List (String × (ℚ × BBox))) : List String :=
  (keysA previous).filter (fun k => decide (k ∉ keysA current))

/-- Embeds `_is_significant_change`. -/
def isSignificantChange (important : List String)
    (current previous : List (String × (ℚ × BBox))) : Bool :=
  if previous = [] then decide (current ≠ [])
  else
    decide ((newObjsOf current previous).filter (fun k => decide (k ∈ important)) ≠ []) ||
      decide ((removedObjsOf current previous).filter (fun k => decide (k ∈ important)) ≠ [])

/-- Python `set.add`. -/
def setAdd (s : List String) (x : String) : List String :=
  if x ∈ s then s else s ++ [x]

/-- First loop of `_update_persistent_objects`: record first-seen times and
promote labels that have been present for `min_persistence_time`. -/
def persistStep (mpt t : ℚ) :
    List (String × ℚ) × List String → List String → List (String × ℚ) × List String
  | acc, [] => acc
  | (tm, ps), obj :: rest =>
    match lookupA obj tm with
    | none => persistStep mpt t (upsert obj t tm, ps) rest
    | some t0 =>
      if t - t0 ≥ mpt then persistStep mpt t (tm, setAdd ps obj) rest
      else persistStep mpt t (tm, ps) rest

/-- Embeds `_update_persistent_objects`: after the promotion loop, every label of
the persistent set absent from the current frame is removed from the
persistent set and popped from the timer map. -/
def updatePersistent (mpt : ℚ) (tm : List (String × ℚ)) (ps : List String)
    (curKeys : List String) (t : ℚ) : List (String × ℚ) × List String :=
  let r := persistStep mpt t (tm, ps) curKeys
  (r.1.filter (fun p => decide (¬(p.1 ∈ r.2 ∧ p.1 ∉ curKeys))),
   r.2.filter (fun o => decide (o ∈ curKeys)))

/-- The state of the monitor once `_update_persistent_objects` ran. -/
def afterPersistence (st : WatchdogMonitor) (detections : List Detection) (now : ℚ) :
    WatchdogMonitor :=
  let current := getCurrentObjects st.min_confidence detections
  let r := updatePersistent st.min_persistence_time st.object_persistence_time
    st.persistent_objects (keysA current) now
  { st with object_persistence_time := r.1, persistent_objects := r.2 }

/-- New-object loop of `process_scene`: for each new label that is
important and off cooldown, emit an Alert and stamp the cooldown. -/
def newObjectAlerts (cd : ℚ) (important : List String) (now : ℚ) :
    List (String × ℚ) → List String → List (AlertLevel × String) × List (String × ℚ)
  | lat, [] => ([], lat)
  | lat, obj :: rest =>
    if obj ∈ important ∧ now - lookupD lat obj ≥ cd then
      let r := newObjectAlerts cd important now (upsert obj now lat) rest
      ((AlertLevel.ALERT, "New " ++ obj ++ " detected in the scene.") :: r.1, r.2)
    else newObjectAlerts cd important now lat rest

/-- Removed-object loop of `process_scene`: cooldown key is
`"removed_" ++ label`, severity is Warning. -/
def removedObjectAlerts (cd : ℚ) (important : List String) (now : ℚ) :
    List (String × ℚ) → List String → List (AlertLevel × String) × List (String × ℚ)
  | lat, [] => ([], lat)
  | lat, obj :: rest =>
    if obj ∈ important ∧ now - lookupD lat ("removed_" ++ obj) ≥ cd then
      let r := removedObjectAlerts cd important now (upsert ("removed_" ++ obj) now lat) rest
      ((AlertLevel.WARNING, pyCapitalize obj ++ " has been removed from the scene.") :: r.1, r.2)
    else removedObjectAlerts cd important now lat rest

/-- The significant-change block of `process_scene` (lines 110-126 of
`watchdog.py`): when the change is significant, run the new-object loop and
then the removed-object loop, threading the cooldown registry through both;
otherwise emit nothing and leave the registry alone. -/
def steadyAlertsPair (cd : ℚ) (important : List String) (lat : List (String × ℚ))
    (current prevObjs : List (String × (ℚ × BBox))) (now : ℚ) :
    List (AlertLevel × String) × List (String × ℚ) :=
  if isSignificantChange important current prevObjs then
    let r1 := newObjectAlerts cd important now lat (newObjsOf current prevObjs)
    let r2 := removedObjectAlerts cd important now r1.2 (removedObjsOf current prevObjs)
    (r1.1 ++ r2.1, r2.2)
  else ([], lat)

/-- Embeds `WatchdogMonitor.process_scene`, taking the injected clock value `now`
for `time.time()`.  Returns the alert list and the updated monitor. -/
def process_scene (st : WatchdogMonitor) (detections : List Detection) (now : ℚ) :
    List (AlertLevel × String) × WatchdogMonitor :=
  let current := getCurrentObjects st.min_confidence detections
  let st1 := afterPersistence st detections now
  if current = [] then
    if now - st1.last_empty_alert_time ≥ st1.empty_scene_cooldown then
      ([(AlertLevel.INFO, "Scene is clear.")], { st1 with last_empty_alert_time := now })
    else ([], st1)
  else
    match st1.previous_state with
    | none =>
      (if "person" ∈ keysA current then [(AlertLevel.ALERT, "Person detected in the scene.")] else [],
       { st1 with previous_state := some ⟨current, now, false⟩ })
    | some prev =>
      let res := steadyAlertsPair st1.cooldown_seconds st1.important_objects
        st1.last_alert_time current prev.objects now
      let personAlerts :=
        if "person" ∈ keysA current ∧ "person" ∉ keysA prev.objects then
          [(AlertLevel.ALERT, "Person detected in the scene.")]
        else []
      (res.1 ++ personAlerts,
       { st1 with last_alert_time := res.2, previous_state := some ⟨current, now, false⟩ })

/-- Fold a sequence of `(clock value, frame)` calls through the monitor. -/
def runScene (st : WatchdogMonitor) (calls : List (ℚ × List Detection)) : WatchdogMonitor :=
  calls.foldl (fun s c => (process_scene s c.2 c.1).2) st

/-- Mutable state of `DetectionManager` (`src/utils.py`) plus its
configuration. -/
structure DetectionManager where
  cooldown_seconds : ℚ
  last_detection_time : List (String × ℚ)
  last_announcement : String
  last_announcement_time : ℚ
  last_announcement_objects : Finset String
  similarity_threshold : ℚ
  large_objects : List String
deriving DecidableEq

/-- Embeds `DetectionManager.__init__`. -/
def initDetectionManager (cooldown_seconds : ℚ) : DetectionManager :=
  { cooldown_seconds := cooldown_seconds
    last_detection_time := []
    last_announcement := ""
    last_announcement_time := 0
    last_announcement_objects := ∅
    similarity_threshold := 7/10
    large_objects :=
      ["refrigerator", "oven", "microwave", "tv", "monitor",
       "bed", "couch", "chair", "table", "desk", "bookshelf",
       "cabinet", "shelf", "counter", "bench", "sofa"] }

/-- Embeds `_get_vertical_position`. -/
def getVerticalPosition (large : List String) (b : BBox) (objName : String) : String :=
  let cy := (b.y1 + b.y2) / 2
  if objName ∈ large then
    if cy > 3/10 then "in front of" else "above"
  else if cy < 2/5 then "above"
  else if cy > 7/10 then "below"
  else "in front of"

/-- Embeds `_get_horizontal_position`. -/
def getHorizontalPosition (b : BBox) : String :=
  let cx := (b.x1 + b.x2) / 2
  if cx < 2/5 then "to your left"
  else if cx > 3/5 then "to your right"
  else "in front of"

/-- The five spatial buckets built by `_group_objects_by_position`. -/
structure PositionGroups where
  above : List String
  in_front : List String
  below : List String
  left : List String
  right : List String
deriving DecidableEq, Repr

/-- Embeds `_group_objects_by_position`. -/
def groupObjectsByPosition (large : List String) (detections : List Detection) :
    PositionGroups :=
  detections.foldl
    (fun g d =>
      let v := getVerticalPosition large d.bbox d.label
      let h := getHorizontalPosition d.bbox
      if v = "above" then { g with above := g.above ++ [d.label] }
      else if v = "below" then { g with below := g.below ++ [d.label] }
      else if h = "to your left" then { g with left := g.left ++ [d.label] }
      else if h = "to your right" then { g with right := g.right ++ [d.label] }
      else { g with in_front := g.in_front ++ [d.label] })
    ⟨[], [], [], [], []⟩

/-- The scene-similarity value computed inside `_is_scene_similar`:
`|intersection| / |union|` when the union is non-empty, and `0` when the
prior label set is empty (the branch on which `_is_scene_similar`
returns `False` before computing the ratio). -/
def sceneSimilarity (current previous : Finset String) : ℚ :=
  if previous = ∅ then 0
  else
    let i : ℚ := (current ∩ previous).card
    let u : ℚ := (current ∪ previous).card
    if u > 0 then i / u else 0

/-- Embeds `_is_scene_similar`. -/
def isSceneSimilar (threshold : ℚ) (current previous : Finset String) : Bool :=
  if previous = ∅ then false
  else decide (sceneSimilarity current previous ≥ threshold)

/-- The label set of a frame, `{name for name, _, _ in detections}`. -/
def currentLabels (detections : List Detection) : Finset String :=
  (detections.map (·.label)).toFinset

/-- The suppression condition at the top of `get_spatial_description`:
inside cooldown, or scene similar to the last announced one. -/
def describeSuppressed (st : DetectionManager) (detections : List Detection) (now : ℚ) :
    Bool :=
  decide (now - st.last_announcement_time < st.cooldown_seconds) ||
    isSceneSimilar st.similarity_threshold (currentLabels detections)
      st.last_announcement_objects

/-- The rendered description segments, in the fixed order
above, in front, left, right; the `below` bucket is never rendered. -/
def renderParts (g : PositionGroups) : List String :=
  (if g.above ≠ [] then [String.intercalate ", " g.above ++ " above"] else []) ++
  (if g.in_front ≠ [] then [String.intercalate ", " g.in_front ++ " in front"] else []) ++
  (if g.left ≠ [] then [String.intercalate ", " g.left ++ " around the left"] else []) ++
  (if g.right ≠ [] then [String.intercalate ", " g.right ++ " around the right"] else [])

/-- Embeds `DetectionManager.get_spatial_description`, taking the injected clock
value `now` for `time.time()`.  Returns the description and the updated
manager.  Note that on the non-suppressed, non-empty branch the source
assigns `last_announcement_time` and `last_announcement_objects` before
testing whether any segment was rendered. -/
def getSpatialDescription (st : DetectionManager) (detections : List Detection) (now : ℚ) :
    String × DetectionManager :=
  if describeSuppressed st detections now then ("", st)
  else if detections = [] then ("The scene is empty.", st)
  else
    let parts := renderParts (groupObjectsByPosition st.large_objects detections)
    (if parts ≠ [] then "I see " ++ String.intercalate ", " parts else "",
     { st with last_announcement_time := now
               last_announcement_objects := currentLabels detections })

/-- Invariant relating the persistent set to the persistence timer map:
every persistent label has a recorded first-seen timestamp. -/
def persistentInvariant (st : WatchdogMonitor) : Prop :=
  ∀ o ∈ st.persistent_objects, o ∈ keysA st.object_persistence_time

/-- A small concrete bounding box used by the concrete scenarios below. -/
def sampleBBox : BBox := ⟨1/10, 1/10, 1/5, 1/5⟩

/-- A monitor with the default constructor configuration. -/
def baseMonitor : WatchdogMonitor := initWatchdog 5 30 (1/2)

/-- Monitor after one frame containing only a cup, at time 0: the cup is
tracked in the persistence timer map but is not yet persistent. -/
def cupTrackedMonitor : WatchdogMonitor :=
  (process_scene baseMonitor [⟨"cup", 9/10, sampleBBox⟩] 0).2

/-- A monitor whose persistent set and timer map both track a laptop. -/
def laptopPersistentMonitor : WatchdogMonitor :=
  { baseMonitor with
      persistent_objects := ["laptop"]
      object_persistence_time := [("laptop", 0)] }

/-- A monitor whose previous scene contained exactly a laptop. -/
def laptopPrevMonitor : WatchdogMonitor :=
  { baseMonitor with
      previous_state := some ⟨[("laptop", (9/10, sampleBBox))], 0, false⟩ }

/-- A frame containing one person detection above the confidence floor. -/
def personFrame : List Detection := [⟨"person", 9/10, sampleBBox⟩]

/-- A frame containing a person and a laptop. -/
def personLaptopFrame : List Detection :=
  [⟨"person", 9/10, sampleBBox⟩, ⟨"laptop", 9/10, sampleBBox⟩]

/-- A frame whose single cup sits low in the image (center_y = 0.8), so the
only populated spatial bucket is `below`, which is never rendered. -/
def lowCupFrame : List Detection := [⟨"cup", 4/5, ⟨1/10, 7/10, 1/5, 9/10⟩⟩]

/-- The chair detection of the spec's bucketing example. -/
def chairFrame : List Detection := [⟨"chair", 4/5, ⟨1/10, 1/2, 3/10, 9/10⟩⟩]

/-- The cup detection of the spec's bucketing example. -/
def highCupFrame : List Detection := [⟨"cup", 4/5, ⟨1/10, 1/10, 1/5, 1/5⟩⟩]

/-! ### Association-list lemmas -/

lemma mem_keysA {β : Type} (o : String) (m : List (String × β)) :
    o ∈ keysA m ↔ ∃ p ∈ m, p.1 = o := by
  simp [keysA, List.mem_map]

lemma lookupA_eraseKeyA_ne {β : Type} (k k' : String) (h : k ≠ k')
    (m : List (String × β)) : lookupA k' (eraseKeyA k m) = lookupA k' m := by
  induction m with
  | nil => rfl
  | cons p r ih =>
    by_cases hp : p.1 = k
    · simp [eraseKeyA, lookupA, hp, h, ih]
    · by_cases hq : p.1 = k'
      · simp [eraseKeyA, lookupA, hp, hq, Ne.symm h]
      · simp [eraseKeyA, lookupA, hp, hq, ih]

lemma lookupA_upsert_self {β : Type} (m : List (String × β)) (k : String) (v : β) :
    lookupA k (upsert k v m) = some v := by
  simp [upsert, lookupA]

lemma lookupA_upsert_ne {β : Type} (m : List (String × β)) (k k' : String) (v : β)
    (h : k ≠ k') : lookupA k' (upsert k v m) = lookupA k' m := by
  simp [upsert, lookupA, h, lookupA_eraseKeyA_ne k k' h]

lemma lookupD_upsert_self (m : List (String × ℚ)) (k : String) (v : ℚ) :
    lookupD (upsert k v m) k = v := by
  simp [lookupD, lookupA_upsert_self]

lemma lookupD_upsert_ne (m : List (String × ℚ)) (k k' : String) (v : ℚ) (h : k ≠ k') :
    lookupD (upsert k v m) k' = lookupD m k' := by
  simp [lookupD, lookupA_upsert_ne m k k' v h]

lemma mem_keysA_iff_lookupA {β : Type} (o : String) (m : List (String × β)) :
    o ∈ keysA m ↔ (lookupA o m).isSome = true := by
  induction m with
  | nil => simp [keysA, lookupA]
  | cons p r ih =>
    by_cases hp : p.1 = o
    · simp [keysA, lookupA, hp]
    · rw [show keysA (p :: r) = p.1 :: keysA r from rfl]
      simp [List.mem_cons, lookupA, hp, Ne.symm hp, ih]

lemma mem_keysA_upsert {β : Type} (k o : String) (v : β) (m : List (String × β))
    (h : o ∈ keysA m) : o ∈ keysA (upsert k v m) := by
  by_cases ho : k = o
  · subst ho
    rw [mem_keysA_iff_lookupA, lookupA_upsert_self]
    rfl
  · rw [mem_keysA_iff_lookupA, lookupA_upsert_ne m k o v ho]
    rw [mem_keysA_iff_lookupA] at h
    exact h

lemma lookupA_some_mem_keysA {β : Type} (k : String) (v : β) (m : List (String × β))
    (h : lookupA k m = some v) : k ∈ keysA m := by
  rw [mem_keysA_iff_lookupA, h]
  rfl

lemma keysA_ne_nil_of_mem {β : Type} {k : String} {m : List (String × β)}
    (h : k ∈ keysA m) : m ≠ [] := by
  intro h'
  subst h'
  simp [keysA] at h

/-! ### Branch equations and field preservation for `process_scene` -/

lemma afterPersistence_previous (st : WatchdogMonitor) (d : List Detection) (now : ℚ) :
    (afterPersistence st d now).previous_state = st.previous_state := rfl

lemma afterPersistence_cooldown (st : WatchdogMonitor) (d : List Detection) (now : ℚ) :
    (afterPersistence st d now).cooldown_seconds = st.cooldown_seconds := rfl

lemma afterPersistence_important (st : WatchdogMonitor) (d : List Detection) (now : ℚ) :
    (afterPersistence st d now).important_objects = st.important_objects := rfl

lemma afterPersistence_last_alert (st : WatchdogMonitor) (d : List Detection) (now : ℚ) :
    (afterPersistence st d now).last_alert_time = st.last_alert_time := rfl

lemma process_scene_empty_eq (st : WatchdogMonitor) (d : List Detection) (now : ℚ)
    (h : getCurrentObjects st.min_confidence d = []) :
    process_scene st d now =
      if now - st.last_empty_alert_time ≥ st.empty_scene_cooldown then
        ([(AlertLevel.INFO, "Scene is clear.")],
         { afterPersistence st d now with last_empty_alert_time := now })
      else ([], afterPersistence st d now) := by
  simp only [process_scene, h]
  rfl

lemma process_scene_first_eq (st : WatchdogMonitor) (d : List Detection) (now : ℚ)
    (h : getCurrentObjects st.min_confidence d ≠ []) (hprev : st.previous_state = none) :
    process_scene st d now =
      ((if "person" ∈ keysA (getCurrentObjects st.min_confidence d) then
          [(AlertLevel.ALERT, "Person detected in the scene.")] else []),
       { afterPersistence st d now with
           previous_state := some ⟨getCurrentObjects st.min_confidence d, now, false⟩ }) := by
  simp only [process_scene, if_neg h, afterPersistence_previous, hprev]

lemma process_scene_steady_eq (st : WatchdogMonitor) (d : List Detection) (now : ℚ)
    (prev : SceneState) (h : getCurrentObjects st.min_confidence d ≠ [])
    (hprev : st.previous_state = some prev) :
    process_scene st d now =
      ((steadyAlertsPair st.cooldown_seconds st.important_objects st.last_alert_time
          (getCurrentObjects st.min_confidence d) prev.objects now).1 ++
        (if "person" ∈ keysA (getCurrentObjects st.min_confidence d) ∧
            "person" ∉ keysA prev.objects then
          [(AlertLevel.ALERT, "Person detected in the scene.")] else []),
       { afterPersistence st d now with
           last_alert_time :=
             (steadyAlertsPair st.cooldown_seconds st.important_objects st.last_alert_time
               (getCurrentObjects st.min_confidence d) prev.objects now).2
           previous_state := some ⟨getCurrentObjects st.min_confidence d, now, false⟩ }) := by
  simp only [process_scene, if_neg h, afterPersistence_previous, afterPersistence_cooldown,
    afterPersistence_important, afterPersistence_last_alert, hprev]

lemma process_scene_config (st : WatchdogMonitor) (d : List Detection) (now : ℚ) :
    (process_scene st d now).2.cooldown_seconds = st.cooldown_seconds ∧
    (process_scene st d now).2.empty_scene_cooldown = st.empty_scene_cooldown ∧
    (process_scene st d now).2.min_confidence = st.min_confidence ∧
    (process_scene st d now).2.important_objects = st.important_objects ∧
    (process_scene st d now).2.min_persistence_time = st.min_persistence_time := by
  simp only [process_scene]
  split
  · split <;> exact ⟨rfl, rfl, rfl, rfl, rfl⟩
  · split <;> exact ⟨rfl, rfl, rfl, rfl, rfl⟩

lemma process_scene_persistence_fields (st : WatchdogMonitor) (d : List Detection) (now : ℚ) :
    (process_scene st d now).2.persistent_objects =
      (afterPersistence st d now).persistent_objects ∧
    (process_scene st d now).2.object_persistence_time =
      (afterPersistence st d now).object_persistence_time := by
  simp only [process_scene]
  split
  · split <;> exact ⟨rfl, rfl⟩
  · split <;> exact ⟨rfl, rfl⟩

lemma previous_state_after_nonempty (st : WatchdogMonitor) (d : List Detection) (now : ℚ)
    (h : getCurrentObjects st.min_confidence d ≠ []) :
    (process_scene st d now).2.previous_state =
      some ⟨getCurrentObjects st.min_confidence d, now, false⟩ := by
  cases hprev : st.previous_state with
  | none => rw [process_scene_first_eq st d now h hprev]
  | some prev => rw [process_scene_steady_eq st d now prev h hprev]

/-! ### Alert-loop lemmas -/

lemma mem_newObjectAlerts (cd : ℚ) (imp : List String) (now : ℚ)
    (lat : List (String × ℚ)) (objs : List String) (obj : String)
    (h1 : obj ∈ objs) (h2 : obj ∈ imp) (h3 : now - lookupD lat obj ≥ cd) :
    (AlertLevel.ALERT, "New " ++ obj ++ " detected in the scene.") ∈
      (newObjectAlerts cd imp now lat objs).1 := by
  induction objs generalizing lat with
  | nil => cases h1
  | cons o rest ih =>
    by_cases ho : o = obj
    · subst ho
      rw [newObjectAlerts, if_pos ⟨h2, h3⟩]
      exact List.mem_cons_self _ _
    · have hmem : obj ∈ rest := by
        rcases List.mem_cons.mp h1 with h | h
        · exact absurd h.symm ho
        · exact h
      by_cases hcond : o ∈ imp ∧ now - lookupD lat o ≥ cd
      · rw [newObjectAlerts, if_pos hcond]
        refine List.mem_cons_of_mem _ ?_
        refine ih (upsert o now lat) hmem ?_
        rw [lookupD_upsert_ne lat o obj now ho]
        exact h3
      · rw [newObjectAlerts, if_neg hcond]
        exact ih lat hmem h3

lemma lookupD_newObjectAlerts_le (cd : ℚ) (imp : List String) (now : ℚ) (hcd : 0 ≤ cd)
    (objs : List String) (lat : List (String × ℚ)) (k : String) :
    lookupD lat k ≤ lookupD (newObjectAlerts cd imp now lat objs).2 k := by
  induction objs generalizing lat with
  | nil => exact le_refl _
  | cons o rest ih =>
    by_cases hcond : o ∈ imp ∧ now - lookupD lat o ≥ cd
    · rw [newObjectAlerts, if_pos hcond]
      refine le_trans ?_ (ih (upsert o now lat))
      by_cases hk : o = k
      · subst hk
        rw [lookupD_upsert_self]
        linarith [hcond.2]
      · rw [lookupD_upsert_ne lat o k now hk]
    · rw [newObjectAlerts, if_neg hcond]
      exact ih lat

lemma lookupD_removedObjectAlerts_le (cd : ℚ) (imp : List String) (now : ℚ) (hcd : 0 ≤ cd)
    (objs : List String) (lat : List (String × ℚ)) (k : String) :
    lookupD lat k ≤ lookupD (removedObjectAlerts cd imp now lat objs).2 k := by
  induction objs generalizing lat with
  | nil => exact le_refl _
  | cons o rest ih =>
    by_cases hcond : o ∈ imp ∧ now - lookupD lat ("removed_" ++ o) ≥ cd
    · rw [removedObjectAlerts, if_pos hcond]
      refine le_trans ?_ (ih (upsert ("removed_" ++ o) now lat))
      by_cases hk : "removed_" ++ o = k
      · subst hk
        rw [lookupD_upsert_self]
        linarith [hcond.2]
      · rw [lookupD_upsert_ne lat _ k now hk]
    · rw [removedObjectAlerts, if_neg hcond]
      exact ih lat

lemma significant_of_new_important (imp : List String)
    (cur prevObjs : List (String × (ℚ × BBox))) (k : String)
    (h1 : k ∈ keysA cur) (h2 : k ∉ keysA prevObjs) (h3 : k ∈ imp) :
    isSignificantChange imp cur prevObjs = true := by
  unfold isSignificantChange
  by_cases hp : prevObjs = []
  · simp [hp, keysA_ne_nil_of_mem h1]
  · rw [if_neg hp]
    have hk : k ∈ (newObjsOf cur prevObjs).filter (fun x => decide (x ∈ imp)) := by
      simp only [newObjsOf, List.mem_filter, decide_eq_true_eq]
      exact ⟨⟨h1, h2⟩, h3⟩
    have hne : (newObjsOf cur prevObjs).filter (fun x => decide (x ∈ imp)) ≠ [] :=
      List.ne_nil_of_mem hk
    simp only [Bool.or_eq_true, decide_eq_true_eq]
    exact Or.inl hne

/-! ### Persistence-tracker lemmas -/

lemma mem_setAdd (ps : List String) (x o : String) :
    o ∈ setAdd ps x ↔ o ∈ ps ∨ o = x := by
  unfold setAdd
  by_cases hx : x ∈ ps
  · rw [if_pos hx]
    constructor
    · exact Or.inl
    · rintro (h | rfl)
      · exact h
      · exact hx
  · rw [if_neg hx]
    simp [List.mem_append]

lemma persistStep_ps_mono (mpt t : ℚ) (objs : List String) :
    ∀ (tm : List (String × ℚ)) (ps : List String) (o : String), o ∈ ps →
      o ∈ (persistStep mpt t (tm, ps) objs).2 := by
  induction objs with
  | nil => intro tm ps o h; simpa [persistStep] using h
  | cons obj rest ih =>
    intro tm ps o h
    cases hl : lookupA obj tm with
    | none =>
      simp only [persistStep, hl]
      exact ih _ _ _ h
    | some t0 =>
      simp only [persistStep, hl]
      by_cases hc : t - t0 ≥ mpt
      · rw [if_pos hc]
        exact ih _ _ _ ((mem_setAdd ps obj o).mpr (Or.inl h))
      · rw [if_neg hc]
        exact ih _ _ _ h

lemma persistStep_ps_from (mpt t : ℚ) (objs : List String) :
    ∀ (tm : List (String × ℚ)) (ps : List String) (o : String),
      o ∈ (persistStep mpt t (tm, ps) objs).2 → o ∈ ps ∨ o ∈ objs := by
  induction objs with
  | nil => intro tm ps o h; simp only [persistStep] at h; exact Or.inl h
  | cons obj rest ih =>
    intro tm ps o h
    cases hl : lookupA obj tm with
    | none =>
      simp only [persistStep, hl] at h
      rcases ih _ _ _ h with h' | h'
      · exact Or.inl h'
      · exact Or.inr (List.mem_cons_of_mem _ h')
    | some t0 =>
      simp only [persistStep, hl] at h
      by_cases hc : t - t0 ≥ mpt
      · rw [if_pos hc] at h
        rcases ih _ _ _ h with h' | h'
        · rcases (mem_setAdd ps obj o).mp h' with h'' | rfl
          · exact Or.inl h''
          · exact Or.inr (List.mem_cons_self _ _)
        · exact Or.inr (List.mem_cons_of_mem _ h')
      · rw [if_neg hc] at h
        rcases ih _ _ _ h with h' | h'
        · exact Or.inl h'
        · exact Or.inr (List.mem_cons_of_mem _ h')

lemma persistStep_keys_mono (mpt t : ℚ) (objs : List String) :
    ∀ (tm : List (String × ℚ)) (ps : List String) (o : String), o ∈ keysA tm →
      o ∈ keysA (persistStep mpt t (tm, ps) objs).1 := by
  induction objs with
  | nil => intro tm ps o h; simpa [persistStep] using h
  | cons obj rest ih =>
    intro tm ps o h
    cases hl : lookupA obj tm with
    | none =>
      simp only [persistStep, hl]
      exact ih _ _ _ (mem_keysA_upsert obj o t tm h)
    | some t0 =>
      simp only [persistStep, hl]
      by_cases hc : t - t0 ≥ mpt
      · rw [if_pos hc]
        exact ih _ _ _ h
      · rw [if_neg hc]
        exact ih _ _ _ h

lemma persistStep_inv (mpt t : ℚ) (objs : List String) :
    ∀ (tm : List (String × ℚ)) (ps : List String),
      (∀ o ∈ ps, o ∈ keysA tm) →
      ∀ o ∈ (persistStep mpt t (tm, ps) objs).2,
        o ∈ keysA (persistStep mpt t (tm, ps) objs).1 := by
  induction objs with
  | nil => intro tm ps h o ho; simp only [persistStep] at ho ⊢; exact h o ho
  | cons obj rest ih =>
    intro tm ps h o ho
    cases hl : lookupA obj tm with
    | none =>
      simp only [persistStep, hl] at ho ⊢
      exact ih _ _ (fun o' ho' => mem_keysA_upsert obj o' t tm (h o' ho')) o ho
    | some t0 =>
      simp only [persistStep, hl] at ho ⊢
      by_cases hc : t - t0 ≥ mpt
      · rw [if_pos hc] at ho ⊢
        refine ih _ _ ?_ o ho
        intro o' ho'
        rcases (mem_setAdd ps obj o').mp ho' with h' | rfl
        · exact h o' h'
        · exact lookupA_some_mem_keysA o' t0 tm hl
      · rw [if_neg hc] at ho ⊢
        exact ih _ _ h o ho

lemma updatePersistent_inv (mpt : ℚ) (tm : List (String × ℚ)) (ps : List String)
    (cur : List String) (t : ℚ) (h : ∀ o ∈ ps, o ∈ keysA tm) :
    ∀ o ∈ (updatePersistent mpt tm ps cur t).2,
      o ∈ keysA (updatePersistent mpt tm ps cur t).1 := by
  intro o ho
  simp only [updatePersistent, List.mem_filter, decide_eq_true_eq] at ho
  obtain ⟨ho1, ho2⟩ := ho
  have hkeys : o ∈ keysA (persistStep mpt t (tm, ps) cur).1 :=
    persistStep_inv mpt t cur tm ps h o ho1
  rw [mem_keysA] at hkeys
  obtain ⟨p, hp, hpe⟩ := hkeys
  simp only [updatePersistent, mem_keysA]
  refine ⟨p, ?_, hpe⟩
  rw [List.mem_filter]
  refine ⟨hp, ?_⟩
  simp only [decide_eq_true_eq, hpe]
  intro hcon
  exact hcon.2 ho2

lemma updatePersistent_purge (mpt : ℚ) (tm : List (String × ℚ)) (ps : List String)
    (cur : List String) (t : ℚ) (obj : String) (hobj : obj ∈ ps) (habs : obj ∉ cur) :
    obj ∉ (updatePersistent mpt tm ps cur t).2 ∧
    obj ∉ keysA (updatePersistent mpt tm ps cur t).1 := by
  constructor
  · intro hmem
    simp only [updatePersistent, List.mem_filter, decide_eq_true_eq] at hmem
    exact habs hmem.2
  · intro hmem
    simp only [updatePersistent, mem_keysA] at hmem
    obtain ⟨p, hp, hpe⟩ := hmem
    rw [List.mem_filter] at hp
    have hps1 : obj ∈ (persistStep mpt t (tm, ps) cur).2 :=
      persistStep_ps_mono mpt t cur tm ps obj hobj
    have := hp.2
    rw [hpe] at this
    simp only [decide_eq_true_eq] at this
    exact this ⟨hps1, habs⟩

lemma updatePersistent_retain (mpt : ℚ) (tm : List (String × ℚ)) (ps : List String)
    (cur : List String) (t : ℚ) (obj : String) (h1 : obj ∈ keysA tm) (h2 : obj ∉ ps)
    (h3 : obj ∉ cur) : obj ∈ keysA (updatePersistent mpt tm ps cur t).1 := by
  have hkeys : obj ∈ keysA (persistStep mpt t (tm, ps) cur).1 :=
    persistStep_keys_mono mpt t cur tm ps obj h1
  have hps1 : obj ∉ (persistStep mpt t (tm, ps) cur).2 := by
    intro hcon
    rcases persistStep_ps_from mpt t cur tm ps obj hcon with h' | h'
    · exact h2 h'
    · exact h3 h'
  rw [mem_keysA] at hkeys
  obtain ⟨p, hp, hpe⟩ := hkeys
  simp only [updatePersistent, mem_keysA]
  refine ⟨p, ?_, hpe⟩
  rw [List.mem_filter]
  refine ⟨hp, ?_⟩
  simp only [decide_eq_true_eq, hpe]
  intro hcon
  exact hps1 hcon.1

/-! ### Step lemmas for the whole-call invariants -/

lemma process_scene_preserves_inv (st : WatchdogMonitor) (d : List Detection) (now : ℚ)
    (h : persistentInvariant st) : persistentInvariant (process_scene st d now).2 := by
  intro o ho
  have hf := process_scene_persistence_fields st d now
  rw [hf.1] at ho
  rw [hf.2]
  simp only [afterPersistence] at ho ⊢
  exact updatePersistent_inv _ _ _ _ _ h o ho

lemma process_scene_cooldown_mono (st : WatchdogMonitor) (d : List Detection) (now : ℚ)
    (hc : 0 ≤ st.cooldown_seconds) (he : 0 ≤ st.empty_scene_cooldown) :
    (∀ k, lookupD st.last_alert_time k ≤
      lookupD (process_scene st d now).2.last_alert_time k) ∧
    st.last_empty_alert_time ≤ (process_scene st d now).2.last_empty_alert_time := by
  by_cases hcur : getCurrentObjects st.min_confidence d = []
  · rw [process_scene_empty_eq st d now hcur]
    by_cases hcd : now - st.last_empty_alert_time ≥ st.empty_scene_cooldown
    · rw [if_pos hcd]
      refine ⟨fun k => le_refl _, ?_⟩
      show st.last_empty_alert_time ≤ now
      linarith
    · rw [if_neg hcd]
      exact ⟨fun k => le_refl _, le_refl _⟩
  · cases hprev : st.previous_state with
    | none =>
      rw [process_scene_first_eq st d now hcur hprev]
      exact ⟨fun k => le_refl _, le_refl _⟩
    | some prev =>
      rw [process_scene_steady_eq st d now prev hcur hprev]
      refine ⟨fun k => ?_, le_refl _⟩
      show lookupD st.last_alert_time k ≤
        lookupD (steadyAlertsPair st.cooldown_seconds st.important_objects st.last_alert_time
          (getCurrentObjects st.min_confidence d) prev.objects now).2 k
      unfold steadyAlertsPair
      by_cases hsig : isSignificantChange st.important_objects
          (getCurrentObjects st.min_confidence d) prev.objects = true
      · rw [if_pos hsig]
        refine le_trans
          (lookupD_newObjectAlerts_le st.cooldown_seconds st.important_objects now hc
            (newObjsOf (getCurrentObjects st.min_confidence d) prev.objects)
            st.last_alert_time k) ?_
        exact lookupD_removedObjectAlerts_le st.cooldown_seconds st.important_objects now hc
          (removedObjsOf (getCurrentObjects st.min_confidence d) prev.objects)
          (newObjectAlerts st.cooldown_seconds st.important_objects now st.last_alert_time
            (newObjsOf (getCurrentObjects st.min_confidence d) prev.objects)).2 k
      · rw [if_neg hsig]

lemma newObjsOf_self (cur : List (String × (ℚ × BBox))) : newObjsOf cur cur = [] := by
  refine List.filter_eq_nil_iff.mpr ?_
  intro k hk
  simp [hk]

lemma removedObjsOf_self (cur : List (String × (ℚ × BBox))) : removedObjsOf cur cur = [] := by
  refine List.filter_eq_nil_iff.mpr ?_
  intro k hk
  simp [hk]

lemma isSignificantChange_self (imp : List String) (cur : List (String × (ℚ × BBox)))
    (h : cur ≠ []) : isSignificantChange imp cur cur = false := by
  unfold isSignificantChange
  rw [if_neg h, newObjsOf_self, removedObjsOf_self]
  simp

lemma steadyAlertsPair_self (cd : ℚ) (imp : List String) (lat : List (String × ℚ))
    (cur : List (String × (ℚ × BBox))) (now : ℚ) (h : cur ≠ []) :
    steadyAlertsPair cd imp lat cur cur now = ([], lat) := by
  unfold steadyAlertsPair
  rw [isSignificantChange_self imp cur h]
  simp

/-! ### Claim theorems -/

/-- C10: starting from the freshly constructed engine, every sequence of
`process_scene` calls preserves the invariant that `persistent_objects` is a
subset of the key set of `object_persistence_time`: a label is never in the
persistent set without a recorded first-seen timestamp. -/
theorem persistent_subset_timer_invariant (cd ec mc : ℚ)
    (calls : List (ℚ × List Detection)) :
    persistentInvariant (runScene (initWatchdog cd ec mc) calls) := by
  have hrun : ∀ (cs : List (ℚ × List Detection)) (st : WatchdogMonitor),
      persistentInvariant st → persistentInvariant (runScene st cs) := by
    intro cs
    induction cs with
    | nil => intro st h; exact h
    | cons c rest ih =>
      intro st h
      exact ih _ (process_scene_preserves_inv st c.2 c.1 h)
  refine hrun calls _ ?_
  intro o ho
  simp [initWatchdog] at ho

/-- C9: across any sequence of `process_scene` calls with non-decreasing
clock values, every stored cooldown-registry value (`last_alert_time` per
key, including `removed_`-prefixed keys, and the empty-scene stamp
`last_empty_alert_time`) is monotonically non-decreasing. -/
theorem cooldown_registry_monotone (st : WatchdogMonitor)
    (calls : List (ℚ × List Detection))
    (hc : 0 ≤ st.cooldown_seconds) (he : 0 ≤ st.empty_scene_cooldown)
    (hclock : calls.Chain' (fun a b => a.1 ≤ b.1)) :
    (∀ k, lookupD st.last_alert_time k ≤ lookupD (runScene st calls).last_alert_time k) ∧
    st.last_empty_alert_time ≤ (runScene st calls).last_empty_alert_time := by
  induction calls generalizing st with
  | nil => exact ⟨fun k => le_refl _, le_refl _⟩
  | cons c rest ih =>
    have hstep := process_scene_cooldown_mono st c.2 c.1 hc he
    have hcfg := process_scene_config st c.2 c.1
    have hc' : 0 ≤ (process_scene st c.2 c.1).2.cooldown_seconds := by
      rw [hcfg.1]; exact hc
    have he' : 0 ≤ (process_scene st c.2 c.1).2.empty_scene_cooldown := by
      rw [hcfg.2.1]; exact he
    have hrest := ih (process_scene st c.2 c.1).2 hc' he' hclock.tail
    exact ⟨fun k => le_trans (hstep.1 k) (hrest.1 k), le_trans hstep.2 hrest.2⟩

/-- Witness for C9 at a concrete two-call run. -/
theorem cooldown_registry_monotone_witness :
    lookupD (initWatchdog 5 30 (1/2)).last_alert_time "person" ≤
      lookupD (runScene (initWatchdog 5 30 (1/2))
        [(0, personFrame), (3, [])]).last_alert_time "person" :=
  (cooldown_registry_monotone (initWatchdog 5 30 (1/2)) [(0, personFrame), (3, [])]
    (by norm_num [initWatchdog]) (by norm_num [initWatchdog])
    (by norm_num [List.chain'_cons, List.chain'_singleton])).1 "person"

/-- C5: with a previous state containing exactly a laptop and a current
frame whose filtered object map is empty, if the empty-scene cooldown has
elapsed then `process_scene` returns exactly `[(Info, "Scene is clear.")]`
(no removal warning) and leaves `previous_state` unchanged. -/
theorem empty_frame_scene_clear_only (st : WatchdogMonitor) (d : List Detection)
    (now c ts : ℚ) (b : BBox) (ie : Bool)
    (hprev : st.previous_state = some ⟨[("laptop", (c, b))], ts, ie⟩)
    (hcur : getCurrentObjects st.min_confidence d = [])
    (hcd : now - st.last_empty_alert_time ≥ st.empty_scene_cooldown) :
    (process_scene st d now).1 = [(AlertLevel.INFO, "Scene is clear.")] ∧
    (process_scene st d now).2.previous_state = st.previous_state := by
  rw [process_scene_empty_eq st d now hcur, if_pos hcd]
  exact ⟨rfl, rfl⟩

/-- Witness for C5: laptop previously present, empty frame at time 50. -/
theorem empty_frame_scene_clear_only_witness :
    (process_scene laptopPrevMonitor [] 50).1 = [(AlertLevel.INFO, "Scene is clear.")] ∧
    (process_scene laptopPrevMonitor [] 50).2.previous_state =
      laptopPrevMonitor.previous_state :=
  empty_frame_scene_clear_only laptopPrevMonitor [] 50 (9/10) 0 sampleBBox false
    rfl rfl (by norm_num [laptopPrevMonitor, baseMonitor, initWatchdog])

/-- C7: on the first-ever non-empty call (`previous_state` unset) whose
filtered objects are exactly a person at confidence 0.9, `process_scene`
stores the current objects as `previous_state` and returns exactly one
`(Alert, "Person detected in the scene.")`. -/
theorem first_frame_single_person_alert (st : WatchdogMonitor) (d : List Detection)
    (now : ℚ) (b : BBox)
    (hprev : st.previous_state = none)
    (hcur : getCurrentObjects st.min_confidence d = [("person", (9/10, b))]) :
    (process_scene st d now).1 = [(AlertLevel.ALERT, "Person detected in the scene.")] ∧
    (process_scene st d now).2.previous_state =
      some ⟨[("person", (9/10, b))], now, false⟩ := by
  have hne : getCurrentObjects st.min_confidence d ≠ [] := by
    rw [hcur]; simp
  rw [process_scene_first_eq st d now hne hprev]
  refine ⟨?_, ?_⟩ <;> simp [hcur, keysA]

/-- Witness for C7 on the concrete person frame at time 3. -/
theorem first_frame_single_person_alert_witness :
    (process_scene baseMonitor personFrame 3).1 =
      [(AlertLevel.ALERT, "Person detected in the scene.")] ∧
    (process_scene baseMonitor personFrame 3).2.previous_state =
      some ⟨[("person", (9/10, sampleBBox))], 3, false⟩ :=
  first_frame_single_person_alert baseMonitor personFrame 3 sampleBBox
    rfl
    (by norm_num [getCurrentObjects, personFrame, baseMonitor, initWatchdog,
      upsert, eraseKeyA, List.foldl_cons, List.foldl_nil])

/-- C6: in the steady-state branch, a person present in the current filtered
objects but not in the previous state (person being important and off
cooldown) yields both the new-object alert and the standalone person alert
in one call, and the emission order is: new-object alerts, then
removed-object alerts, then the standalone person alert. -/
theorem steady_person_duplicate_order (st : WatchdogMonitor) (d : List Detection)
    (now : ℚ) (prev : SceneState)
    (hprev : st.previous_state = some prev)
    (hp1 : "person" ∈ keysA (getCurrentObjects st.min_confidence d))
    (hp2 : "person" ∉ keysA prev.objects)
    (hp3 : "person" ∈ st.important_objects)
    (hcd : now - lookupD st.last_alert_time "person" ≥ st.cooldown_seconds) :
    (process_scene st d now).1 =
      (newObjectAlerts st.cooldown_seconds st.important_objects now st.last_alert_time
        (newObjsOf (getCurrentObjects st.min_confidence d) prev.objects)).1 ++
      (removedObjectAlerts st.cooldown_seconds st.important_objects now
        (newObjectAlerts st.cooldown_seconds st.important_objects now st.last_alert_time
          (newObjsOf (getCurrentObjects st.min_confidence d) prev.objects)).2
        (removedObjsOf (getCurrentObjects st.min_confidence d) prev.objects)).1 ++
      [(AlertLevel.ALERT, "Person detected in the scene.")] ∧
    (AlertLevel.ALERT, "New person detected in the scene.") ∈
      (newObjectAlerts st.cooldown_seconds st.important_objects now st.last_alert_time
        (newObjsOf (getCurrentObjects st.min_confidence d) prev.objects)).1 := by
  have hne : getCurrentObjects st.min_confidence d ≠ [] := keysA_ne_nil_of_mem hp1
  have hsig := significant_of_new_important st.important_objects
    (getCurrentObjects st.min_confidence d) prev.objects "person" hp1 hp2 hp3
  constructor
  · rw [process_scene_steady_eq st d now prev hne hprev]
    dsimp only
    unfold steadyAlertsPair
    rw [if_pos hsig, if_pos ⟨hp1, hp2⟩]
  · refine mem_newObjectAlerts st.cooldown_seconds st.important_objects now
      st.last_alert_time _ "person" ?_ hp3 hcd
    simp only [newObjsOf, List.mem_filter, decide_eq_true_eq]
    exact ⟨hp1, hp2⟩

/-- Witness for C6: person and laptop appear while only the laptop was
previously present, at time 20 with all cooldowns elapsed. -/
theorem steady_person_duplicate_order_witness :
    (AlertLevel.ALERT, "New person detected in the scene.") ∈
      (newObjectAlerts laptopPrevMonitor.cooldown_seconds
        laptopPrevMonitor.important_objects 20 laptopPrevMonitor.last_alert_time
        (newObjsOf (getCurrentObjects laptopPrevMonitor.min_confidence personLaptopFrame)
          (SceneState.mk [("laptop", (9/10, sampleBBox))] 0 false).objects)).1 :=
  (steady_person_duplicate_order laptopPrevMonitor personLaptopFrame 20
    ⟨[("laptop", (9/10, sampleBBox))], 0, false⟩
    rfl
    (by norm_num [getCurrentObjects, keysA, personLaptopFrame, laptopPrevMonitor,
        baseMonitor, initWatchdog, upsert, eraseKeyA, List.foldl_cons, List.foldl_nil] <;>
      decide)
    (by norm_num [keysA] <;> decide)
    (by norm_num [laptopPrevMonitor, baseMonitor, initWatchdog])
    (by norm_num [laptopPrevMonitor, baseMonitor, initWatchdog, lookupD, lookupA])).2

/-- C8: calling `process_scene` twice with an identical non-empty frame, the
second call within `cooldown_seconds` of the first, yields no Alert-level or
Warning-level event on the second call (so in particular none for any label
alerted on the first call). -/
theorem repeat_frame_no_alert_warning (st : WatchdogMonitor) (d : List Detection)
    (now1 now2 : ℚ) (hd : d ≠ []) (h12 : now1 ≤ now2)
    (hwin : now2 - now1 < st.cooldown_seconds) :
    ((process_scene (process_scene st d now1).2 d now2).1.filter
      (fun e => decide (e.1 = AlertLevel.ALERT) || decide (e.1 = AlertLevel.WARNING))) =
      [] := by
  have hmc : (process_scene st d now1).2.min_confidence = st.min_confidence :=
    (process_scene_config st d now1).2.2.1
  by_cases hcur : getCurrentObjects st.min_confidence d = []
  · have hcur2 : getCurrentObjects (process_scene st d now1).2.min_confidence d = [] := by
      rw [hmc]; exact hcur
    rw [process_scene_empty_eq _ d now2 hcur2]
    by_cases hcd : now2 - (process_scene st d now1).2.last_empty_alert_time ≥
        (process_scene st d now1).2.empty_scene_cooldown
    · rw [if_pos hcd]
      rfl
    · rw [if_neg hcd]
      rfl
  · have hprev1 : (process_scene st d now1).2.previous_state =
        some ⟨getCurrentObjects st.min_confidence d, now1, false⟩ :=
      previous_state_after_nonempty st d now1 hcur
    have hcur2 : getCurrentObjects (process_scene st d now1).2.min_confidence d =
        getCurrentObjects st.min_confidence d := by rw [hmc]
    have hne2 : getCurrentObjects (process_scene st d now1).2.min_confidence d ≠ [] := by
      rw [hcur2]; exact hcur
    rw [process_scene_steady_eq _ d now2 _ hne2 hprev1]
    dsimp only
    rw [hcur2, steadyAlertsPair_self _ _ _ _ _ hcur,
      if_neg (fun hpq => hpq.2 hpq.1)]
    rfl

/-- Witness for C8: the same person frame at times 3 and 4. -/
theorem repeat_frame_no_alert_warning_witness :
    ((process_scene (process_scene baseMonitor personFrame 3).2 personFrame 4).1.filter
      (fun e => decide (e.1 = AlertLevel.ALERT) || decide (e.1 = AlertLevel.WARNING))) =
      [] :=
  repeat_frame_no_alert_warning baseMonitor personFrame 3 4
    (by simp [personFrame]) (by norm_num)
    (by norm_num [baseMonitor, initWatchdog])

/-- C1 counterexample: after one call the cup is tracked in the persistence
timer map without being persistent; a second call whose filtered frame is
empty leaves the cup in the timer map, so a label that was tracked but not
yet promoted is not purged on absence. -/
theorem unpromoted_label_not_purged_cex :
    "cup" ∈ keysA cupTrackedMonitor.object_persistence_time ∧
    "cup" ∉ cupTrackedMonitor.persistent_objects ∧
    getCurrentObjects cupTrackedMonitor.min_confidence [] = [] ∧
    "cup" ∈ keysA ((process_scene cupTrackedMonitor [] 1).2).object_persistence_time := by
  norm_num [cupTrackedMonitor, baseMonitor, initWatchdog, process_scene, getCurrentObjects,
    afterPersistence, updatePersistent, persistStep, upsert, eraseKeyA, lookupA, keysA,
    setAdd, List.foldl_cons, List.foldl_nil, List.filter]

/-- C1 amended: after a `process_scene` call, a label absent from the
current filtered frame is removed from both the timer map and the persistent
set exactly when it was in the persistent set; a tracked label that had not
yet been promoted to persistent is retained in the timer map. -/
theorem absent_label_persistence_update (st : WatchdogMonitor) (d : List Detection)
    (now : ℚ) (obj : String)
    (habs : obj ∉ keysA (getCurrentObjects st.min_confidence d)) :
    (obj ∈ st.persistent_objects →
      obj ∉ (process_scene st d now).2.persistent_objects ∧
      obj ∉ keysA (process_scene st d now).2.object_persistence_time) ∧
    (obj ∉ st.persistent_objects → obj ∈ keysA st.object_persistence_time →
      obj ∈ keysA (process_scene st d now).2.object_persistence_time) := by
  have hf := process_scene_persistence_fields st d now
  constructor
  · intro hobj
    rw [hf.1, hf.2]
    simp only [afterPersistence]
    exact updatePersistent_purge st.min_persistence_time st.object_persistence_time
      st.persistent_objects (keysA (getCurrentObjects st.min_confidence d)) now obj hobj habs
  · intro h2 h1
    rw [hf.2]
    simp only [afterPersistence]
    exact updatePersistent_retain st.min_persistence_time st.object_persistence_time
      st.persistent_objects (keysA (getCurrentObjects st.min_confidence d)) now obj h1 h2 habs

/-- Witness for the C1 amended claim: a persistent laptop vanishing from the
frame is purged from both structures. -/
theorem absent_label_persistence_update_witness :
    "laptop" ∉ (process_scene laptopPersistentMonitor [] 5).2.persistent_objects ∧
    "laptop" ∉ keysA (process_scene laptopPersistentMonitor [] 5).2.object_persistence_time :=
  (absent_label_persistence_update laptopPersistentMonitor [] 5 "laptop"
    (by simp [getCurrentObjects, keysA])).1
    (by simp [laptopPersistentMonitor, baseMonitor, initWatchdog])

/-- C2 counterexample: on a non-suppressed, non-empty frame whose only
object falls in the never-rendered `below` bucket, the describer returns the
empty string yet still updates `last_announcement_time`, so state is not
left untouched when no segment is rendered. -/
theorem empty_render_mutates_state_cex :
    (getSpatialDescription (initDetectionManager 10) lowCupFrame 100).1 = "" ∧
    (getSpatialDescription (initDetectionManager 10) lowCupFrame 100).2.last_announcement_time
      = 100 ∧
    (initDetectionManager 10).last_announcement_time = 0 := by
  refine ⟨?_, ?_, rfl⟩ <;>
  · norm_num [getSpatialDescription, describeSuppressed, isSceneSimilar, sceneSimilarity,
      currentLabels, initDetectionManager, lowCupFrame, groupObjectsByPosition,
      getVerticalPosition, getHorizontalPosition, renderParts,
      List.foldl_cons, List.foldl_nil]
    try simp
    try norm_num

/-- C2 amended: `get_spatial_description` leaves the manager untouched on
the suppressed branch and on the empty-frame branch, but on every reached
non-empty frame it updates `last_announcement_time` and
`last_announcement_objects`, even when no segment is rendered and the empty
string is returned. -/
theorem describe_state_update_characterization (st : DetectionManager)
    (d : List Detection) (now : ℚ) :
    (describeSuppressed st d now = true → getSpatialDescription st d now = ("", st)) ∧
    (describeSuppressed st d now = false → d = [] →
      getSpatialDescription st d now = ("The scene is empty.", st)) ∧
    (describeSuppressed st d now = false → d ≠ [] →
      (getSpatialDescription st d now).2 =
        { st with last_announcement_time := now
                  last_announcement_objects := currentLabels d } ∧
      (renderParts (groupObjectsByPosition st.large_objects d) = [] →
        (getSpatialDescription st d now).1 = "") ∧
      (renderParts (groupObjectsByPosition st.large_objects d) ≠ [] →
        (getSpatialDescription st d now).1 =
          "I see " ++ String.intercalate ", "
            (renderParts (groupObjectsByPosition st.large_objects d)))) := by
  refine ⟨?_, ?_, ?_⟩
  · intro h
    simp [getSpatialDescription, h]
  · intro h hd
    subst hd
    simp [getSpatialDescription, h]
  · intro h hd
    refine ⟨?_, ?_, ?_⟩
    · simp [getSpatialDescription, h, hd]
    · intro hp
      simp [getSpatialDescription, h, hd, hp]
    · intro hp
      simp [getSpatialDescription, h, hd, hp]

/-- Witness for the C2 amended claim at the below-bucket frame: the state is
updated although the returned description is empty. -/
theorem describe_state_update_characterization_witness :
    (getSpatialDescription (initDetectionManager 10) lowCupFrame 100).2 =
      { initDetectionManager 10 with
          last_announcement_time := 100
          last_announcement_objects := currentLabels lowCupFrame } :=
  ((describe_state_update_characterization (initDetectionManager 10) lowCupFrame 100).2.2
    (by norm_num [describeSuppressed, isSceneSimilar, sceneSimilarity, currentLabels,
      initDetectionManager, lowCupFrame])
    (by simp [lowCupFrame])).1

/-- C3 counterexample: the chair detection of the spec's example is placed
in the `left` bucket by the spatial grouping (center_x = 0.2 < 0.4), not in
the `in_front` bucket. -/
theorem chair_bucketed_left_cex :
    (groupObjectsByPosition (initDetectionManager 10).large_objects chairFrame).in_front
      = [] ∧
    (groupObjectsByPosition (initDetectionManager 10).large_objects chairFrame).left
      = ["chair"] := by
  have hchair : "chair" ∈ (initDetectionManager 10).large_objects := by decide
  norm_num [groupObjectsByPosition, getVerticalPosition, getHorizontalPosition, chairFrame,
    hchair, List.foldl_cons, List.foldl_nil]
  simp

/-- C3 amended: the chair detection is classified vertically as
`in front of` (chair is large and center_y = 0.7 > 0.3) but the horizontal
refinement (center_x = 0.2 < 0.4) places it in the `left` bucket; the cup
detection (center_y = 0.15 < 0.4, not large) is placed in the `above`
bucket. -/
theorem spatial_bucketing_chair_cup :
    getVerticalPosition (initDetectionManager 10).large_objects
      ⟨1/10, 1/2, 3/10, 9/10⟩ "chair" = "in front of" ∧
    (groupObjectsByPosition (initDetectionManager 10).large_objects chairFrame).left
      = ["chair"] ∧
    (groupObjectsByPosition (initDetectionManager 10).large_objects highCupFrame).above
      = ["cup"] := by
  have hchair : "chair" ∈ (initDetectionManager 10).large_objects := by decide
  have hcup : "cup" ∉ (initDetectionManager 10).large_objects := by decide
  norm_num [groupObjectsByPosition, getVerticalPosition, getHorizontalPosition, chairFrame,
    highCupFrame, hchair, hcup, List.foldl_cons, List.foldl_nil]
  simp

/-- C4 counterexample: the similarity of the empty label set with itself is
0, not 1.0, so `similarity(A, A) = 1.0` fails at `A = ∅`. -/
theorem similarity_empty_self_cex :
    sceneSimilarity (∅ : Finset String) ∅ = 0 ∧
    sceneSimilarity (∅ : Finset String) ∅ ≠ 1 := by
  constructor
  · simp [sceneSimilarity]
  · simp [sceneSimilarity]

/-- C4 amended: the scene similarity is symmetric, equals 1.0 on every
non-empty label set compared with itself, and is 0 against an empty prior
label set (for `A = ∅` the self-similarity is 0, not 1). -/
theorem sceneSimilarity_symm_self_empty (A B : Finset String) :
    sceneSimilarity A B = sceneSimilarity B A ∧
    (A ≠ ∅ → sceneSimilarity A A = 1) ∧
    sceneSimilarity A ∅ = 0 := by
  refine ⟨?_, ?_, ?_⟩
  · rcases eq_or_ne A ∅ with hA | hA <;> rcases eq_or_ne B ∅ with hB | hB <;>
      simp [sceneSimilarity, hA, hB, Finset.inter_comm, Finset.union_comm]
  · intro hA
    have hpos : 0 < A.card := Finset.card_pos.mpr (Finset.nonempty_iff_ne_empty.mpr hA)
    have hq : (0 : ℚ) < A.card := by exact_mod_cast hpos
    simp [sceneSimilarity, hA, Finset.inter_self, Finset.union_self, hq,
      div_self (ne_of_gt hq)]
  · simp [sceneSimilarity]

/-- Witness for the C4 amended claim on a non-empty singleton set. -/
theorem sceneSimilarity_symm_self_empty_witness :
    sceneSimilarity ({"laptop"} : Finset String) {"laptop"} = 1 :=
  (sceneSimilarity_symm_self_empty {"laptop"} ∅).2.1 (by simp)

end Optoguard
